import Mathlib

/-!
Verification of the SkywarnPlus alert engine (`SkywarnPlus.py`) against its
natural-language specification.

The Python functions are shallowly embedded as pure Lean functions:
dictionaries become association lists (`List (String × _)`, preserving the
insertion order of `OrderedDict`), Python sets become lists used up to
membership, UTC instants become natural numbers, and the persisted state
file becomes an explicit `EngineState` value threaded through the
functions.  File activity (audio export, `shutil.copyfile`) is recorded in
the result values instead of performed.
-/

/-- One per-zone occurrence of an alert title, i.e. one element of the list
stored under a title in the `alerts` ordered dictionary (a Python dict with
keys `county_code`, `severity`, `description`, `end_time_utc`).  Instants
are modelled as natural numbers ordered like the UTC timestamps. -/
structure Occurrence where
  county_code : String
  severity : Nat
  description : String
  end_time_utc : Nat
deriving DecidableEq, Repr

/-- An alert collection: the `OrderedDict` mapping alert titles to their
occurrence lists, modelled as an association list in iteration order. -/
abbrev AlertColl := List (String × List Occurrence)

/-- The engine state persisted in `data.json`: current courtesy tone,
current identifier, processed trigger titles (`alertscript_alerts`), the
last alert collection, the last spoken set and the active alert titles. -/
structure EngineState where
  ct : Option String
  id : Option String
  alertscript_alerts : List String
  last_alerts : AlertColl
  last_sayalert : List String
  active_alerts : List String
deriving DecidableEq, Repr

/-- The default state returned by `load_state` when `data.json` is absent. -/
def default_state : EngineState := ⟨none, none, [], [], [], []⟩

/-- A state file that parses as JSON: the `ct` and `id` keys as written by
`save_state` (JSON `null` becomes `none`), and the four list-valued keys,
each `Option`-wrapped because `load_state` defaults them when missing. -/
structure StoredState where
  ct : Option String
  id : Option String
  alertscript_alerts : Option (List String)
  last_alerts : Option AlertColl
  last_sayalert : Option (List String)
  active_alerts : Option (List String)
deriving DecidableEq

/-- The three observable shapes of the persistence layer content: no file,
a file that `json.load` cannot parse, and a parsed state. -/
inductive StateFileContent where
  | absent
  | corrupt
  | valid (s : StoredState)

/-- Embedding of `load_state` (SkywarnPlus.py lines 320-356).  A missing
file yields the default state; a present file is passed to `json.load`,
which raises on corrupt content (modelled as `Except.error ()`); a parsed
state gets per-key defaults for the four list-valued keys, and the
`last_alerts` pair list is rebuilt into an `OrderedDict` (the association
list itself in this model). -/
def load_state : StateFileContent → Except Unit EngineState
  | .absent => .ok default_state
  | .corrupt => .error ()
  | .valid s =>
      .ok ⟨s.ct, s.id, s.alertscript_alerts.getD [], s.last_alerts.getD [],
           s.last_sayalert.getD [], s.active_alerts.getD []⟩

/-- Embedding of the fetch-failure fallback inside `get_alerts`
(SkywarnPlus.py lines 613-645): for each stored `(event, alert_list)` pair
the code sets `alerts[event] = []` and then appends exactly the occurrences
with `end_time_utc >= now`; the `event` key itself is never removed. -/
def fallbackAlerts (stored : AlertColl) (now : Nat) : AlertColl :=
  stored.map (fun p => (p.1, p.2.filter (fun a => now ≤ a.end_time_utc)))

/-- The alert-collection invariant stated by the spec: every title maps to
at least one occurrence. -/
def collectionInvariant (c : AlertColl) : Prop := ∀ p ∈ c, p.2 ≠ []

/-- A stored occurrence whose end time is already in the past. -/
def occExpired : Occurrence := ⟨"TXC001", 4, "test alert", 5⟩

/-- Characters removed from county codes by `detect_county_changes`: the
two brace characters (code points 123 and 125) and the double quote. -/
def strippedChar (c : Char) : Bool :=
  c == Char.ofNat 123 || c == Char.ofNat 125 || c == '\"'

/-- Embedding of the county-code cleanup applied by `detect_county_changes`
(SkywarnPlus.py lines 1446-1453): three chained single-character
`str.replace(_, "")` calls, i.e. deletion of every brace and double-quote
character from the code. -/
def stripCounty (s : String) : String :=
  String.mk (s.toList.filter (fun c => !strippedChar c))

/-- The set of county codes of an occurrence list, as built by the set
comprehensions in `detect_county_changes`. -/
def countySet (occs : List Occurrence) : Finset String :=
  (occs.map (fun o => o.county_code)).toFinset

/-- One entry of the `changes_detected` dictionary returned by
`detect_county_changes`: the old county-code set and the (cleaned) added
and removed sets. -/
structure CountyChange where
  old : Finset String
  added : Finset String
  removed : Finset String
deriving DecidableEq

/-- Per-title body of the loop in `detect_county_changes` (SkywarnPlus.py
lines 1436-1461): titles absent from the old collection are skipped;
otherwise the old and new county-code sets are compared and, when the
cleaned added or removed set is nonempty, a change record is produced. -/
def detectChange1 (old_alerts : AlertColl) (p : String × List Occurrence) :
    Option (String × CountyChange) :=
  match List.lookup p.1 old_alerts with
  | none => none
  | some oldOccs =>
      if ((countySet p.2 \ countySet oldOccs).image stripCounty).Nonempty ∨
         ((countySet oldOccs \ countySet p.2).image stripCounty).Nonempty then
        some (p.1, ⟨countySet oldOccs,
          (countySet p.2 \ countySet oldOccs).image stripCounty,
          (countySet oldOccs \ countySet p.2).image stripCounty⟩)
      else none

/-- Embedding of `detect_county_changes` (SkywarnPlus.py lines 1428-1463):
returns the collection of alerts with changed county membership (with their
new occurrence lists) together with the per-title change records, both in
the iteration order of the new collection. -/
def detect_county_changes (old_alerts new_alerts : AlertColl) :
    AlertColl × List (String × CountyChange) :=
  (new_alerts.filter (fun p => (detectChange1 old_alerts p).isSome),
   new_alerts.filterMap (detectChange1 old_alerts))

/-- Embedding of `added_alerts` in `main` (SkywarnPlus.py line 1543):
titles of the current collection that are not keys of the previous one. -/
def added_alerts (last_alerts alerts : AlertColl) : List String :=
  (alerts.map Prod.fst).filter (fun t => !(last_alerts.map Prod.fst).contains t)

/-- Embedding of `removed_alerts` in `main` (SkywarnPlus.py line 1559):
titles of the previous collection that are not keys of the current one. -/
def removed_alerts (last_alerts alerts : AlertColl) : List String :=
  (last_alerts.map Prod.fst).filter (fun t => !(alerts.map Prod.fst).contains t)

/-- Diff correctness as amended: added and removed title lists are
disjoint; every reported change concerns a title present in both
collections, is reported exactly when the old and new county-code sets
differ, and carries the cleaned (`stripCounty`) images of the two set
differences. -/
def diffCorrectness (old_alerts new_alerts : AlertColl) : Prop :=
  (∀ t, t ∈ added_alerts old_alerts new_alerts → t ∉ removed_alerts old_alerts new_alerts) ∧
  (∀ t ch, (t, ch) ∈ (detect_county_changes old_alerts new_alerts).2 →
      t ∈ old_alerts.map Prod.fst ∧ t ∈ new_alerts.map Prod.fst) ∧
  (∀ t ch, (t, ch) ∈ (detect_county_changes old_alerts new_alerts).2 →
      ∃ oldOccs newOccs, List.lookup t old_alerts = some oldOccs ∧
        List.lookup t new_alerts = some newOccs ∧
        countySet oldOccs ≠ countySet newOccs ∧
        ch.added = (countySet newOccs \ countySet oldOccs).image stripCounty ∧
        ch.removed = (countySet oldOccs \ countySet newOccs).image stripCounty) ∧
  (∀ t oldOccs newOccs, List.lookup t old_alerts = some oldOccs →
      List.lookup t new_alerts = some newOccs →
      countySet oldOccs ≠ countySet newOccs →
      ∃ ch, (t, ch) ∈ (detect_county_changes old_alerts new_alerts).2)

/-- An occurrence with a plain county code. -/
def occPlainA : Occurrence := ⟨"A", 4, "d", 10⟩

/-- An occurrence whose county code contains brace characters, which
`detect_county_changes` strips from its report. -/
def occBraceB : Occurrence := ⟨"\x7bB\x7d", 4, "d", 10⟩

/-- The `severity_mapping_words` table of `sort_alerts` and `get_alerts`:
`Warning=4, Watch=3, Advisory=2, Statement=1`, anything else 0. -/
def severity_mapping_words (w : String) : Nat :=
  if w = "Warning" then 4
  else if w = "Watch" then 3
  else if w = "Advisory" then 2
  else if w = "Statement" then 1
  else 0

/-- Python `title.split()[-1]`: the last whitespace-separated word of a
title (split on single spaces, empty fragments dropped). -/
def lastWord (s : String) : String :=
  ((s.splitOn " ").filter (fun w => !(w == ""))).getLastD ""

/-- Python `max([x["severity"] for x in occs])`: for the nonempty
occurrence lists the code operates on, this fold over naturals equals the
maximum (Python raises on an empty list). -/
def maxSeverity (occs : List Occurrence) : Nat :=
  occs.foldl (fun m o => max m o.severity) 0

/-- The sort key of `sort_alerts` (SkywarnPlus.py lines 676-687): the pair
(maximum occurrence severity, word severity of the title's last word). -/
def alertSortKey (p : String × List Occurrence) : Nat × Nat :=
  (maxSeverity p.2, severity_mapping_words (lastWord p.1))

/-- Lexicographic comparison of Python tuples of two integers. -/
def keyLexLE (k l : Nat × Nat) : Bool :=
  decide (k.1 < l.1) || (k.1 == l.1 && decide (k.2 ≤ l.2))

/-- The ordering used by `sorted(..., reverse=True)`: `a` may precede `b`
when the key of `b` is lexicographically at most the key of `a`.  Equal
keys are related both ways, so a stable sort with this relation keeps
their input order, exactly as Python's stable `sorted` does. -/
def sortDescLE (a b : String × List Occurrence) : Bool :=
  keyLexLE (alertSortKey b) (alertSortKey a)

/-- Embedding of `sort_alerts` (SkywarnPlus.py lines 667-692), also the
sort-and-truncate epilogue of `get_alerts` (lines 650-662): a stable
descending sort by `alertSortKey` followed by truncation to the configured
`MAX_ALERTS`. -/
def sort_alerts (maxAlerts : Nat) (alerts : AlertColl) : AlertColl :=
  (alerts.mergeSort sortDescLE).take maxAlerts

/-- The sorting-and-truncation postcondition: the output is descending by
the sort key, has length at most the maximum, equals the first
`maxAlerts` entries of the full stable sort, every dropped entry has a key
at most every kept entry's key (top-N), and entries with equal keys keep
their input relative order. -/
def sortTruncSpec (maxAlerts : Nat) (l : AlertColl) : Prop :=
  (sort_alerts maxAlerts l).Pairwise (fun a b => sortDescLE a b = true) ∧
  (sort_alerts maxAlerts l).length ≤ maxAlerts ∧
  sort_alerts maxAlerts l = (l.mergeSort sortDescLE).take maxAlerts ∧
  List.Perm (l.mergeSort sortDescLE) l ∧
  (∀ a ∈ sort_alerts maxAlerts l, ∀ b ∈ (l.mergeSort sortDescLE).drop maxAlerts,
      sortDescLE a b = true) ∧
  (∀ a b, alertSortKey a = alertSortKey b → List.Sublist [a, b] l →
      b ∈ sort_alerts maxAlerts l → List.Sublist [a, b] (sort_alerts maxAlerts l))

/-- The courtesy-tone file names read from the configuration by
`change_ct`: the two normal tones, the WX tone, and the two active
(repeater) slots they are copied onto. -/
structure CTConfig where
  ct1 : String
  ct2 : String
  wx_ct : String
  rpt_ct1 : String
  rpt_ct2 : String
deriving DecidableEq

/-- The identifier file names read from the configuration by `change_id`:
the normal and WX identifiers and the active slot. -/
structure IDConfig where
  normal_id : String
  wx_id : String
  rpt_id : String
deriving DecidableEq

/-- Result of a tone or identifier transition: the Python return value
(`None`, `False` or `True`), the engine state after the call (the
`load_state`/`save_state` file round-trip is modelled by threading the
state), the `shutil.copyfile` calls performed as (source, destination)
pairs, and whether `save_state` was called. -/
structure ChangeResult where
  ret : Option Bool
  state : EngineState
  copies : List (String × String)
  saved : Bool
deriving DecidableEq

/-- Embedding of `change_ct` (SkywarnPlus.py lines 1112-1174): a falsy
argument returns `None`; an argument equal to the persisted current tone
returns `False` with no copy and no save; otherwise the two tone assets
are copied over the active slots (the normal pair for `NORMAL`, the WX
tone twice for anything else), the state is saved with `ct` set, and
`True` is returned. -/
def change_ct (cfg : CTConfig) (state : EngineState) (ct : String) : ChangeResult :=
  if ct = "" then ⟨none, state, [], false⟩
  else if state.ct = some ct then ⟨some false, state, [], false⟩
  else if ct = "NORMAL" then
    ⟨some true, { state with ct := some ct },
      [(cfg.ct1, cfg.rpt_ct1), (cfg.ct2, cfg.rpt_ct2)], true⟩
  else
    ⟨some true, { state with ct := some ct },
      [(cfg.wx_ct, cfg.rpt_ct1), (cfg.wx_ct, cfg.rpt_ct2)], true⟩

/-- Embedding of `change_id` (SkywarnPlus.py lines 1177-1224): same shape
as `change_ct` with a single identifier asset copied onto one slot. -/
def change_id (icfg : IDConfig) (state : EngineState) (idv : String) : ChangeResult :=
  if idv = "" then ⟨none, state, [], false⟩
  else if state.id = some idv then ⟨some false, state, [], false⟩
  else if idv = "NORMAL" then
    ⟨some true, { state with id := some idv }, [(icfg.normal_id, icfg.rpt_id)], true⟩
  else
    ⟨some true, { state with id := some idv }, [(icfg.wx_id, icfg.rpt_id)], true⟩

/-- Tone/identifier transition idempotence: a transition to the persisted
current value is a pure no-op returning `False`; a real change copies the
assets (two for the tone, one for the identifier), saves the new current
value and returns `True`; and the immediate second call with the same
target is always the no-op, so two calls in a row copy at most once. -/
def transitionIdem (cfg : CTConfig) (icfg : IDConfig) (s : EngineState) (X : String) : Prop :=
  (s.ct = some X → change_ct cfg s X = ⟨some false, s, [], false⟩) ∧
  (s.ct ≠ some X → (change_ct cfg s X).ret = some true ∧
      (change_ct cfg s X).copies.length = 2 ∧ (change_ct cfg s X).saved = true ∧
      (change_ct cfg s X).state = { s with ct := some X }) ∧
  change_ct cfg (change_ct cfg s X).state X =
    ⟨some false, (change_ct cfg s X).state, [], false⟩ ∧
  (s.id = some X → change_id icfg s X = ⟨some false, s, [], false⟩) ∧
  (s.id ≠ some X → (change_id icfg s X).ret = some true ∧
      (change_id icfg s X).copies.length = 1 ∧ (change_id icfg s X).saved = true ∧
      (change_id icfg s X).state = { s with id := some X }) ∧
  change_id icfg (change_id icfg s X).state X =
    ⟨some false, (change_id icfg s X).state, [], false⟩

/-- Shell-style glob matching as used by `fnmatch.fnmatch` on the patterns
this configuration uses (`*`, `?` and literal characters; POSIX
case-sensitive).  The extra fuel argument is a strict upper bound on the
recursion depth (each call shrinks pattern plus text by at least one),
making the standard glob recursion structural; it is never exhausted when
called through `fnmatch`. -/
def globAux : Nat → List Char → List Char → Bool
  | 0, _, _ => false
  | _ + 1, [], cs => cs.isEmpty
  | fuel + 1, p :: ps, [] => p == '*' && globAux fuel ps []
  | fuel + 1, p :: ps, c :: cs =>
    if p == '*' then globAux fuel ps (c :: cs) || globAux fuel (p :: ps) cs
    else if p == '?' then globAux fuel ps cs
    else p == c && globAux fuel ps cs

/-- Python `fnmatch.fnmatch(name, pat)` for the glob subset above. -/
def fnmatch (name pat : String) : Bool :=
  globAux (pat.toList.length + name.toList.length + 1) pat.toList name.toList

/-- One AlertScript trigger mapping: glob trigger patterns, command
templates, target nodes, the match policy string (after `.upper()`,
defaulting to `ANY`), and the `Type` key (`BASH`, `DTMF` or absent). -/
structure Mapping where
  triggers : List String
  commands : List String
  nodes : List String
  matchT : String
  mtype : Option String
deriving DecidableEq

/-- The `matched_alerts` list built by `alert_script` (SkywarnPlus.py
lines 1275-1282): for each new alert, the title is appended once per
trigger pattern it matches (there is no break in the inner loop). -/
def matched_alerts (new_alerts triggers : List String) : List String :=
  new_alerts.flatMap (fun a => (triggers.filter (fun g => fnmatch a g)).map (fun _ => a))

/-- The firing condition of `alert_script` (SkywarnPlus.py lines
1285-1290): ANY fires when some alert matched; ALL fires when the length
of `matched_alerts` equals the number of trigger patterns. -/
def mappingFires (m : Mapping) (matched : List String) : Bool :=
  (m.matchT == "ANY" && !matched.isEmpty) ||
    (m.matchT == "ALL" && matched.length == m.triggers.length)

/-- The DTMF command string assembled by `alert_script`:
`asterisk -rx "rpt fun NODE CMD"`. -/
def dtmfCmd (node cmd : String) : String :=
  "asterisk -rx \"rpt fun " ++ node ++ " " ++ cmd ++ "\""

/-- The command executions performed for one firing mapping (SkywarnPlus.py
lines 1296-1315): for each matched alert, BASH mappings run each command
template with the alert title substituted (recorded as the
(template, title) pair), DTMF mappings run the assembled command per node
and per command, and any other type runs nothing. -/
def mappingExecutions (m : Mapping) (matched : List String) : List (String × String) :=
  matched.flatMap (fun a =>
    if m.mtype = some "BASH" then m.commands.map (fun c => (c, a))
    else if m.mtype = some "DTMF" then
      m.nodes.flatMap (fun n => m.commands.map (fun c => (dtmfCmd n c, a)))
    else [])

/-- Result of one `alert_script` run: the saved state and the list of
executed commands (command text or template, alert title it was run
for). -/
structure ScriptResult where
  state : EngineState
  executions : List (String × String)
deriving DecidableEq

/-- Embedding of `alert_script` (SkywarnPlus.py lines 1227-1324).  New
alerts are the current titles not in the stored active set; cleared alerts
are stored active titles no longer current.  Every mapping is evaluated
against the new alerts only; matched titles of firing mappings are added
to the processed set, cleared titles are removed from it, and the active
set is replaced by the current titles.  Python keeps the processed and
new/cleared collections as sets; this model keeps them as lists and
states properties up to membership and count. -/
def alert_script (mappings : List Mapping) (s : EngineState) (alertNames : List String) :
    ScriptResult :=
  let new_alerts := alertNames.filter (fun a => !s.active_alerts.contains a)
  let cleared := s.active_alerts.filter (fun a => !alertNames.contains a)
  let fired := mappings.flatMap (fun m =>
    if mappingFires m (matched_alerts new_alerts m.triggers) then
      matched_alerts new_alerts m.triggers
    else [])
  let execs := mappings.flatMap (fun m =>
    if mappingFires m (matched_alerts new_alerts m.triggers) then
      mappingExecutions m (matched_alerts new_alerts m.triggers)
    else [])
  let processed := ((s.alertscript_alerts ++ fired).dedup).filter
    (fun a => !cleared.contains a)
  { state := { s with active_alerts := alertNames, alertscript_alerts := processed },
    executions := execs }

/-- The C6 mapping: two patterns that both match the same title, ANY
policy, one BASH command. -/
def mapC6 : Mapping :=
  ⟨["Tornado*", "*Warning"], ["say \x7balert_title\x7d"], [], "ANY", some "BASH"⟩

/-- The C7 mapping: the same two overlapping patterns with the ALL
policy. -/
def mapC7 : Mapping := ⟨["Tornado*", "*Warning"], ["beep"], [], "ALL", some "BASH"⟩

/-- Definition following the SPEC words for C7 (not the source): the
newly-appeared titles that match at least one of the mapping's patterns.
The claim asserts the ALL policy compares the count of these titles with
the pattern count. -/
def specMatchingTitles (new_alerts triggers : List String) : List String :=
  new_alerts.filter (fun a => triggers.any (fun g => fnmatch a g))

/-- Trigger dispatch as amended: matched titles are always newly-appeared
(current but not active before, so a continuously active title never
re-fires); within one cycle a title is matched once per trigger pattern it
matches (not at most once); each newly appeared title occurs at most once
in the new-alert list when the current titles are duplicate-free; a
cleared title is removed from the processed set; and the active set is
replaced by the current titles. -/
def triggerSingleFire (mappings : List Mapping) (s : EngineState)
    (alertNames : List String) : Prop :=
  (∀ m ∈ mappings,
    ∀ t ∈ matched_alerts (alertNames.filter (fun a => !s.active_alerts.contains a)) m.triggers,
      t ∈ alertNames ∧ t ∉ s.active_alerts) ∧
  (∀ m ∈ mappings, ∀ t,
    (matched_alerts (alertNames.filter (fun a => !s.active_alerts.contains a)) m.triggers).count t =
      (alertNames.filter (fun a => !s.active_alerts.contains a)).count t *
        (m.triggers.filter (fun g => fnmatch t g)).length) ∧
  (∀ t, (alertNames.filter (fun a => !s.active_alerts.contains a)).count t ≤ 1) ∧
  (∀ t ∈ s.active_alerts, t ∉ alertNames →
      t ∉ (alert_script mappings s alertNames).state.alertscript_alerts) ∧
  (alert_script mappings s alertNames).state.active_alerts = alertNames

/-- One audio segment of a pydub composition: a silence of a given
duration in milliseconds, or a clip loaded from a wav file (identified by
its file name).  Concatenation is list append; `convert_audio` (resampling
to 8 kHz mono) preserves the segment structure. -/
inductive Seg where
  | silence (ms : Nat)
  | clip (name : String)
deriving DecidableEq, Repr

/-- Embedding of `convert_audio` (SkywarnPlus.py lines 1355-1359): sample
rate and channel conversion does not change the segment structure. -/
def convert_audio (a : List Seg) : List Seg := a

/-- pydub `AudioSegment.empty()` is a classmethod: called on any segment it
ignores the receiver and returns the zero-length empty segment. -/
def segEmptyCall (_s : List Seg) : List Seg := []

/-- Python truthiness of a pydub segment: `bool()` goes through `__len__`,
the duration in milliseconds, so the zero-length empty segment is falsy.
In this model it is only ever applied to `segEmptyCall _ = []`. -/
def segTruthy (s : List Seg) : Bool := !s.isEmpty

/-- The hardcoded catalog of alert titles (SkywarnPlus.py lines 118-247);
`ALERT_INDEXES[i] = str(i+1)` names the clip `SWP_(i+1).wav`. -/
def ALERT_STRINGS : List String := [
  "911 Telephone Outage Emergency", "Administrative Message", "Air Quality Alert",
  "Air Stagnation Advisory", "Arroyo And Small Stream Flood Advisory", "Ashfall Advisory",
  "Ashfall Warning", "Avalanche Advisory", "Avalanche Warning",
  "Avalanche Watch", "Beach Hazards Statement", "Blizzard Warning",
  "Blizzard Watch", "Blowing Dust Advisory", "Blowing Dust Warning",
  "Brisk Wind Advisory", "Child Abduction Emergency", "Civil Danger Warning",
  "Civil Emergency Message", "Coastal Flood Advisory", "Coastal Flood Statement",
  "Coastal Flood Warning", "Coastal Flood Watch", "Dense Fog Advisory",
  "Dense Smoke Advisory", "Dust Advisory", "Dust Storm Warning",
  "Earthquake Warning", "Evacuation - Immediate", "Excessive Heat Warning",
  "Excessive Heat Watch", "Extreme Cold Warning", "Extreme Cold Watch",
  "Extreme Fire Danger", "Extreme Wind Warning", "Fire Warning",
  "Fire Weather Watch", "Flash Flood Statement", "Flash Flood Warning",
  "Flash Flood Watch", "Flood Advisory", "Flood Statement",
  "Flood Warning", "Flood Watch", "Freeze Warning",
  "Freeze Watch", "Freezing Fog Advisory", "Freezing Rain Advisory",
  "Freezing Spray Advisory", "Frost Advisory", "Gale Warning",
  "Gale Watch", "Hard Freeze Warning", "Hard Freeze Watch",
  "Hazardous Materials Warning", "Hazardous Seas Warning", "Hazardous Seas Watch",
  "Hazardous Weather Outlook", "Heat Advisory", "Heavy Freezing Spray Warning",
  "Heavy Freezing Spray Watch", "High Surf Advisory", "High Surf Warning",
  "High Wind Warning", "High Wind Watch", "Hurricane Force Wind Warning",
  "Hurricane Force Wind Watch", "Hurricane Local Statement", "Hurricane Warning",
  "Hurricane Watch", "Hydrologic Advisory", "Hydrologic Outlook",
  "Ice Storm Warning", "Lake Effect Snow Advisory", "Lake Effect Snow Warning",
  "Lake Effect Snow Watch", "Lake Wind Advisory", "Lakeshore Flood Advisory",
  "Lakeshore Flood Statement", "Lakeshore Flood Warning", "Lakeshore Flood Watch",
  "Law Enforcement Warning", "Local Area Emergency", "Low Water Advisory",
  "Marine Weather Statement", "Nuclear Power Plant Warning", "Radiological Hazard Warning",
  "Red Flag Warning", "Rip Current Statement", "Severe Thunderstorm Warning",
  "Severe Thunderstorm Watch", "Severe Weather Statement", "Shelter In Place Warning",
  "Short Term Forecast", "Small Craft Advisory", "Small Craft Advisory For Hazardous Seas",
  "Small Craft Advisory For Rough Bar", "Small Craft Advisory For Winds", "Small Stream Flood Advisory",
  "Snow Squall Warning", "Special Marine Warning", "Special Weather Statement",
  "Storm Surge Warning", "Storm Surge Watch", "Storm Warning",
  "Storm Watch", "Test", "Tornado Warning",
  "Tornado Watch", "Tropical Depression Local Statement", "Tropical Storm Local Statement",
  "Tropical Storm Warning", "Tropical Storm Watch", "Tsunami Advisory",
  "Tsunami Warning", "Tsunami Watch", "Typhoon Local Statement",
  "Typhoon Warning", "Typhoon Watch", "Urban And Small Stream Flood Advisory",
  "Volcano Warning", "Wind Advisory", "Wind Chill Advisory",
  "Wind Chill Warning", "Wind Chill Watch", "Winter Storm Warning",
  "Winter Storm Watch", "Winter Weather Advisory"]

/-- Python `ALERT_STRINGS.index(title)`: `none` models the `ValueError`
raised for a title outside the catalog (caught by the builders, which then
skip the alert). -/
def alertIndex (t : String) : Option Nat := ALERT_STRINGS.indexOf? t

/-- The wav file of catalog entry `i`: `SWP_{ALERT_INDEXES[i]}.wav`. -/
def swpClip (i : Nat) : String := "SWP_" ++ toString (i + 1) ++ ".wav"

/-- The per-alert county-identifier loop shared by `say_alerts` (lines
812-844) and `build_tailmessage` (lines 1041-1074): for each occurrence in
order, when county wavs are configured, the code is a known county, and it
is not yet in the announced set, append a word gap (600 ms for the first
occurrence of the list, 400 ms otherwise), the county clip, and a trailing
600 ms gap when the occurrence is the last of the list, and add the county
to the announced set.  Returns the segments, the (title, county)
announcement events, and the final announced set.  `say_alerts` calls it
with a fresh empty set per alert, `build_tailmessage` threads one set
through the entire build. -/
def countyLoop (countyCodes countyWavs : List String) (t : String)
    (occs : List Occurrence) :
    List Occurrence → List String → List Seg × List (String × String) × List String
  | [], added => ([], [], added)
  | occ :: rest, added =>
    if !countyWavs.isEmpty && countyCodes.contains occ.county_code &&
        !added.contains occ.county_code then
      let ws : Nat := if occs.indexOf occ == 0 then 600 else 400
      let wav := countyWavs.getD (countyCodes.indexOf occ.county_code) ""
      let trail : List Seg :=
        if occs.indexOf occ == occs.length - 1 then [Seg.silence 600] else []
      let res := countyLoop countyCodes countyWavs t occs rest (occ.county_code :: added)
      ([Seg.silence ws, Seg.clip wav] ++ trail ++ res.1,
        (t, occ.county_code) :: res.2.1, res.2.2)
    else
      countyLoop countyCodes countyWavs t occs rest added

/-- The configuration consumed by `build_tailmessage`: the tailmessage
block list, the `TailmessageCounties` switch, the optional suffix clip,
the audio delay, the county code/wav tables, the separator clip and the
`WithMultiples` switch. -/
structure TailConfig where
  blocked : List String
  countyEnabled : Bool
  suffix : Option String
  audioDelay : Nat
  countyCodes : List String
  countyWavs : List String
  sepClip : String
  withMultiples : Bool
deriving DecidableEq

/-- One iteration of the `build_tailmessage` alert loop (SkywarnPlus.py
lines 998-1083), accumulating (segments, events, announced county set): a
block-listed title or one outside the catalog is skipped; otherwise the
separator and the title clip are appended, then the `multiple instances`
clip when more than one distinct description or end time occurs, then the
county identifiers with the shared announced set. -/
def tailAlertStep (cfg : TailConfig)
    (acc : List Seg × List (String × String) × List String)
    (p : String × List Occurrence) : List Seg × List (String × String) × List String :=
  if cfg.blocked.any (fun g => fnmatch p.1 g) then acc
  else
    match alertIndex p.1 with
    | none => acc
    | some i =>
      let base := acc.1 ++ [Seg.clip cfg.sepClip, Seg.clip (swpClip i)]
      let withMult :=
        if cfg.withMultiples &&
            (decide (1 < ((p.2.map (fun o => o.description)).dedup).length) ||
             decide (1 < ((p.2.map (fun o => o.end_time_utc)).dedup).length)) then
          base ++ [Seg.silence 200, Seg.clip "SWP_149.wav"]
        else base
      if cfg.countyEnabled then
        let res := countyLoop cfg.countyCodes cfg.countyWavs p.1 p.2 p.2 acc.2.2
        (withMult ++ res.1, acc.2.1 ++ res.2.1, res.2.2)
      else (withMult, acc.2.1, acc.2.2)

/-- Result of a tailmessage build: the audio written to the tailmessage
file and the county announcement events. -/
structure BuildResult where
  tailfile : List Seg
  events : List (String × String)
deriving DecidableEq

/-- Embedding of `build_tailmessage` (SkywarnPlus.py lines 964-1109).  An
empty collection exports a 100 ms silence.  Otherwise the alert loop runs;
the guard `combined_sound.empty()` calls the pydub classmethod, whose
zero-length result is always falsy, so the intended all-blocked silence
branch is never taken and the (possibly empty) composition goes on to the
suffix / audio-delay branch and is exported as is. -/
def build_tailmessage (cfg : TailConfig) (alerts : AlertColl) : BuildResult :=
  if alerts.isEmpty then ⟨convert_audio [Seg.silence 100], []⟩
  else
    let res := alerts.foldl (tailAlertStep cfg) ([], [], [])
    let combined :=
      if segTruthy (segEmptyCall res.1) then [Seg.silence 100]
      else
        match cfg.suffix with
        | some suf => res.1 ++ [Seg.silence 1000, Seg.clip suf]
        | none =>
          if cfg.audioDelay > 0 then Seg.silence cfg.audioDelay :: res.1 else res.1
    ⟨convert_audio combined, res.2.1⟩

/-- The configuration consumed by the `say_alerts` audio build: the
say-alert block list, the county tables, the `WithMultiples` switch, the
separator and intro clips, the optional suffix and the audio delay. -/
structure SayConfig where
  blocked : List String
  countyCodes : List String
  countyWavs : List String
  withMultiples : Bool
  sepClip : String
  introClip : String
  suffix : Option String
  audioDelay : Nat
deriving DecidableEq

/-- One iteration of the `say_alerts` alert loop (SkywarnPlus.py lines
780-853), accumulating (segments, events, alert_count): blocked titles
(the `filtered_alerts_and_counties` check) and titles outside the catalog
are skipped; otherwise the separator and title clips are appended, the
multiples clip when applicable, and the county identifiers with a FRESH
empty announced set for this alert (`added_county_codes = set()` is inside
the loop). -/
def sayAlertStep (cfg : SayConfig)
    (acc : List Seg × List (String × String) × Nat)
    (p : String × List Occurrence) : List Seg × List (String × String) × Nat :=
  if cfg.blocked.any (fun g => fnmatch p.1 g) then acc
  else
    match alertIndex p.1 with
    | none => acc
    | some i =>
      let base := acc.1 ++ [Seg.clip cfg.sepClip, Seg.clip (swpClip i)]
      let withMult :=
        if cfg.withMultiples &&
            (decide (1 < ((p.2.map (fun o => o.description)).dedup).length) ||
             decide (1 < ((p.2.map (fun o => o.end_time_utc)).dedup).length)) then
          base ++ [Seg.silence 200, Seg.clip "SWP_149.wav"]
        else base
      let res := countyLoop cfg.countyCodes cfg.countyWavs p.1 p.2 p.2 []
      (withMult ++ res.1, acc.2.1 ++ res.2.1, acc.2.2 + 1)

/-- The county announcement events of one `say_alerts` build. -/
def sayEvents (cfg : SayConfig) (alerts : AlertColl) : List (String × String) :=
  (alerts.foldl (sayAlertStep cfg) ([], [], 0)).2.1

/-- The county announcement events of one `build_tailmessage` build (equal
to `(build_tailmessage cfg alerts).events`). -/
def tailEvents (cfg : TailConfig) (alerts : AlertColl) : List (String × String) :=
  (alerts.foldl (tailAlertStep cfg) ([], [], [])).2.1

/-- The per-alert county events of `say_alerts`, starting from the fresh
empty announced set the source allocates for each alert. -/
def sayAlertEvents (cfg : SayConfig) (p : String × List Occurrence) :
    List (String × String) :=
  if cfg.blocked.any (fun g => fnmatch p.1 g) then []
  else
    match alertIndex p.1 with
    | none => []
    | some _ => (countyLoop cfg.countyCodes cfg.countyWavs p.1 p.2 p.2 []).2.1

/-- Embedding of the `say_alerts` audio composition (SkywarnPlus.py lines
754-874): intro effect, 600 ms gap and the `SWP_148.wav` header, then the
per-alert segments; `none` models the early return when every alert was
blocked (`alert_count == 0`); otherwise the optional suffix is appended
and the audio delay prepended before export. -/
def say_alerts_build (cfg : SayConfig) (alerts : AlertColl) :
    Option (List Seg × List (String × String)) :=
  let intro := [Seg.clip cfg.introClip, Seg.silence 600, Seg.clip "SWP_148.wav"]
  let res := alerts.foldl (sayAlertStep cfg) ([], [], 0)
  if res.2.2 == 0 then none
  else
    let withSuffix :=
      match cfg.suffix with
      | some suf => intro ++ res.1 ++ [Seg.silence 600, Seg.clip suf]
      | none => intro ++ res.1
    some (convert_audio
      (if cfg.audioDelay > 0 then Seg.silence cfg.audioDelay :: withSuffix else withSuffix),
      res.2.1)

/-- The C8 tail configuration: one blocked title, no counties, no suffix,
no delay. -/
def tailCfgBlockAll : TailConfig :=
  ⟨["Tornado Warning"], false, none, 0, [], [], "Woodblock.wav", false⟩

/-- The C9 tail configuration: county identifiers enabled with one known
county. -/
def tailCfgC9 : TailConfig :=
  ⟨[], true, none, 0, ["A"], ["A.wav"], "Woodblock.wav", false⟩

/-- The C9 say configuration matching `tailCfgC9`. -/
def sayCfgC9 : SayConfig :=
  ⟨[], ["A"], ["A.wav"], false, "Woodblock.wav", "Duncecap.wav", none, 0⟩

/-- A second occurrence of county A under a different alert. -/
def occA2 : Occurrence := ⟨"A", 3, "d2", 20⟩

/-- County deduplication as amended: in the `say_alerts` build every
eligible (unblocked, in-catalog) alert announces every eligible county of
its occurrences — the announced set is reset between alerts — while in the
`build_tailmessage` build one announced set spans the whole message, so
each county identifier appears at most once in the entire build. -/
def countyDedupAmended (scfg : SayConfig) (tcfg : TailConfig) (alerts : AlertColl) : Prop :=
  (∀ p ∈ alerts, ∀ c : String,
      scfg.blocked.any (fun g => fnmatch p.1 g) = false →
      (alertIndex p.1).isSome = true →
      scfg.countyWavs.isEmpty = false →
      scfg.countyCodes.contains c = true →
      c ∈ p.2.map (fun o => o.county_code) →
      (p.1, c) ∈ sayEvents scfg alerts) ∧
  ((tailEvents tcfg alerts).map Prod.snd).Nodup

/-- Result of one `change_ct_id_helper` call: the engine state after the
inner `change_ct`/`change_id` (threaded through the state-file round
trip), the file copies performed, and the function's LOCAL
`pushover_message` binding after its `+=` appends.  The Python function
returns `None`; the local string is never handed back to the caller. -/
structure HelperResult where
  state : EngineState
  copies : List (String × String)
  localMessage : String
deriving DecidableEq

/-- Embedding of `change_ct_id_helper` (SkywarnPlus.py lines 1362-1409):
when auto change is enabled, the first alert title also present in the
configured list (the loop breaks after one iteration) triggers a WX
transition, otherwise a NORMAL transition; when the transition reports a
change and pushover debug is on, a notice is appended to the local
message copy. -/
def change_ct_id_helper (cfg : CTConfig) (icfg : IDConfig) (s : EngineState)
    (alerts : AlertColl) (specified_alerts : List String)
    (auto_change_enabled : Bool) (alert_type : String) (pushover_debug : Bool)
    (pushover_message : String) : HelperResult :=
  if !auto_change_enabled then ⟨s, [], pushover_message⟩
  else
    match (alerts.map Prod.fst).filter (fun a => specified_alerts.contains a) with
    | [] =>
      let r := if alert_type = "CT" then change_ct cfg s "NORMAL"
               else change_id icfg s "NORMAL"
      ⟨r.state, r.copies,
        if r.ret = some true ∧ pushover_debug = true then
          pushover_message ++ ("Changed " ++ (alert_type ++ " to NORMAL\n"))
        else pushover_message⟩
    | _ :: _ =>
      let r := if alert_type = "CT" then change_ct cfg s "WX"
               else change_id icfg s "WX"
      ⟨r.state, r.copies,
        if r.ret = some true ∧ pushover_debug = true then
          pushover_message ++ ("Changed " ++ (alert_type ++ " to WX\n"))
        else pushover_message⟩

/-- The relevant fragment of `main` (SkywarnPlus.py lines 1659-1674): the
orchestrator calls the helper for CT and then for ID, passing its
`pushover_message` string by value both times and discarding the `None`
return; the value of `pushover_message` that `main` holds afterwards is
the result. -/
def mainPushoverAfterCtId (cfg : CTConfig) (icfg : IDConfig) (s : EngineState)
    (alerts : AlertColl) (ct_alerts id_alerts : List String)
    (enable_ct enable_id : Bool) (pushover_debug : Bool)
    (pushover_message : String) : String :=
  let r1 := change_ct_id_helper cfg icfg s alerts ct_alerts enable_ct "CT"
    pushover_debug pushover_message
  let _r2 := change_ct_id_helper cfg icfg r1.state alerts id_alerts enable_id "ID"
    pushover_debug pushover_message
  pushover_message

/-- C1 counterexample: on a present-but-corrupt state file, `load_state`
propagates the `json.load` exception instead of returning the default
state, so loading is not total over persistence-layer contents. -/
theorem load_state_corrupt_raises :
    load_state StateFileContent.corrupt = Except.error () := rfl

/-- C1 (amended): `load_state` returns the default state when the file is
absent and an `EngineState` (with per-key defaults) when the file parses,
but a corrupt file makes it raise rather than return defaults. -/
theorem load_state_amended :
    load_state StateFileContent.absent = Except.ok default_state ∧
    load_state StateFileContent.corrupt = Except.error () ∧
    ∀ s : StoredState, ∃ st : EngineState,
      load_state (StateFileContent.valid s) = Except.ok st := by
  refine ⟨rfl, rfl, fun s => ⟨_, rfl⟩⟩

/-- C3: the fallback path keeps a title whose occurrences have all expired,
producing an alert with an empty occurrence list, in violation of the
collection invariant (the subsequent severity sort then evaluates `max` on
an empty list, which raises in Python). -/
theorem fallback_keeps_empty_title :
    fallbackAlerts [("Tornado Warning", [occExpired])] 10
      = [("Tornado Warning", [])] ∧
    ¬ collectionInvariant (fallbackAlerts [("Tornado Warning", [occExpired])] 10) := by
  constructor
  · rfl
  · intro h
    exact (h ("Tornado Warning", []) (by simp [fallbackAlerts, occExpired])) rfl

/-- Helper: on an association list with distinct keys, membership of a pair
determines the lookup result. -/
theorem lookup_of_mem_nodup {β : Type} {l : List (String × β)} {k : String} {v : β}
    (hnd : (l.map Prod.fst).Nodup) (h : (k, v) ∈ l) : List.lookup k l = some v := by
  induction l with
  | nil => simp at h
  | cons p rest ih =>
    obtain ⟨a, b⟩ := p
    simp only [List.map_cons, List.nodup_cons] at hnd
    rcases List.mem_cons.mp h with h1 | h2
    · cases h1
      simp [List.lookup]
    · have hk : (k == a) = false := by
        refine beq_eq_false_iff_ne.mpr ?_
        intro he
        exact hnd.1 (he ▸ List.mem_map.mpr ⟨(k, v), h2, rfl⟩)
      simp [List.lookup, hk, ih hnd.2 h2]

/-- Helper: a successful lookup comes from a pair of the list. -/
theorem mem_of_lookup_some {β : Type} {l : List (String × β)} {k : String} {v : β}
    (h : List.lookup k l = some v) : (k, v) ∈ l := by
  obtain ⟨l₁, l₂, rfl, -⟩ := List.lookup_eq_some_iff.mp h
  simp

/-- Helper: the cleaned added or removed set is nonempty exactly when the
old and new county-code sets differ. -/
theorem changed_iff_sets_ne (oldC newC : Finset String) :
    (((newC \ oldC).image stripCounty).Nonempty ∨
      ((oldC \ newC).image stripCounty).Nonempty) ↔ oldC ≠ newC := by
  rw [Finset.image_nonempty, Finset.image_nonempty]
  constructor
  · rintro (h | h) rfl <;> simp [Finset.sdiff_self] at h
  · intro hne
    by_contra hcon
    push_neg at hcon
    refine hne (Finset.Subset.antisymm
      (Finset.sdiff_eq_empty_iff_subset.mp (Finset.not_nonempty_iff_eq_empty.mp hcon.2))
      (Finset.sdiff_eq_empty_iff_subset.mp (Finset.not_nonempty_iff_eq_empty.mp hcon.1)))

/-- Helper: characterization of a successful `detectChange1`. -/
theorem detectChange1_eq_some {old_alerts : AlertColl} {p : String × List Occurrence}
    {t : String} {ch : CountyChange} :
    detectChange1 old_alerts p = some (t, ch) ↔
      t = p.1 ∧ ∃ oldOccs, List.lookup p.1 old_alerts = some oldOccs ∧
        countySet oldOccs ≠ countySet p.2 ∧
        ch = ⟨countySet oldOccs, (countySet p.2 \ countySet oldOccs).image stripCounty,
              (countySet oldOccs \ countySet p.2).image stripCounty⟩ := by
  unfold detectChange1
  rcases hlk : List.lookup p.1 old_alerts with _ | oldOccs
  · simp
  · simp only
    by_cases hc : ((countySet p.2 \ countySet oldOccs).image stripCounty).Nonempty ∨
        ((countySet oldOccs \ countySet p.2).image stripCounty).Nonempty
    · rw [if_pos hc]
      simp only [Option.some.injEq, Prod.mk.injEq]
      constructor
      · rintro ⟨h1, h2⟩
        exact ⟨h1.symm, oldOccs, rfl, (changed_iff_sets_ne _ _).mp hc, h2.symm⟩
      · rintro ⟨ht, oldOccs2, hlk2, -, hch⟩
        cases hlk2
        exact ⟨ht.symm, hch.symm⟩
    · rw [if_neg hc]
      simp only [false_iff, reduceCtorEq, false_and, and_false]
      rintro ⟨-, oldOccs2, hlk2, hne2, -⟩
      cases hlk2
      exact hc ((changed_iff_sets_ne _ _).mpr hne2)

/-- C2 counterexample: with an old collection `{Tornado Warning: [A]}` and
a new one whose only county code contains braces, the reported added set is
the cleaned `{B}`, not the plain set difference the claim prescribes. -/
theorem detect_changes_cleans_added_codes :
    ((detect_county_changes [("Tornado Warning", [occPlainA])]
        [("Tornado Warning", [occBraceB])]).2.map (fun q => q.2.added)) = [{"B"}] ∧
    countySet [occBraceB] \ countySet [occPlainA] = {"\x7bB\x7d"} ∧
    ({"B"} : Finset String) ≠ {"\x7bB\x7d"} := by decide

/-- C2 (amended): added and removed titles are disjoint; a change is
reported for a title exactly when it is present in both collections with
different county-code sets, and the reported added and removed sets are
the brace-and-quote-cleaned images of the two set differences. -/
theorem detect_county_changes_correct (old_alerts new_alerts : AlertColl)
    (hnew : (new_alerts.map Prod.fst).Nodup) :
    diffCorrectness old_alerts new_alerts := by
  refine ⟨?_, ?_, ?_, ?_⟩
  · intro t ht hr
    simp only [added_alerts, List.mem_filter, List.contains, Bool.not_eq_true',
      List.elem_eq_mem, decide_eq_false_iff_not] at ht
    simp only [removed_alerts, List.mem_filter] at hr
    exact ht.2 hr.1
  · intro t ch hmem
    obtain ⟨p, hp, hf⟩ := List.mem_filterMap.mp hmem
    obtain ⟨ht, oldOccs, hlk, -, -⟩ := detectChange1_eq_some.mp hf
    subst ht
    refine ⟨?_, List.mem_map.mpr ⟨p, hp, rfl⟩⟩
    obtain ⟨l₁, l₂, he, -⟩ := List.lookup_eq_some_iff.mp hlk
    subst he
    simp
  · intro t ch hmem
    obtain ⟨p, hp, hf⟩ := List.mem_filterMap.mp hmem
    obtain ⟨ht, oldOccs, hlk, hne, hch⟩ := detectChange1_eq_some.mp hf
    subst ht
    exact ⟨oldOccs, p.2, hlk, lookup_of_mem_nodup hnew (by simpa using hp), hne,
      by rw [hch], by rw [hch]⟩
  · intro t oldOccs newOccs hlo hln hne
    refine ⟨⟨countySet oldOccs, (countySet newOccs \ countySet oldOccs).image stripCounty,
      (countySet oldOccs \ countySet newOccs).image stripCounty⟩,
      List.mem_filterMap.mpr ⟨(t, newOccs), mem_of_lookup_some hln, ?_⟩⟩
    exact detectChange1_eq_some.mpr ⟨rfl, oldOccs, hlo, hne, rfl⟩

/-- C2 witness: the amended diff-correctness theorem instantiated at a
concrete pair of one-title collections. -/
theorem detect_county_changes_correct_witness :
    (([("Flood Warning", [occBraceB])] : AlertColl).map Prod.fst).Nodup ∧
    diffCorrectness [("Flood Warning", [occPlainA])] [("Flood Warning", [occBraceB])] :=
  ⟨by decide, detect_county_changes_correct _ _ (by decide)⟩

/-- Helper: lexicographic pair comparison is transitive. -/
theorem keyLexLE_trans {a b c : Nat × Nat} (h1 : keyLexLE a b = true)
    (h2 : keyLexLE b c = true) : keyLexLE a c = true := by
  simp only [keyLexLE, Bool.or_eq_true, Bool.and_eq_true, decide_eq_true_eq,
    beq_iff_eq] at h1 h2 ⊢
  omega

/-- Helper: lexicographic pair comparison is total. -/
theorem keyLexLE_total (a b : Nat × Nat) : keyLexLE a b || keyLexLE b a := by
  simp only [keyLexLE, Bool.or_eq_true, Bool.and_eq_true, decide_eq_true_eq,
    beq_iff_eq]
  omega

/-- Helper: in a duplicate-free list, a pair sublist whose second element
survives `take m` is a sublist of the `take m` part. -/
theorem pair_sublist_take {α : Type} {a b : α} :
    ∀ {m : Nat} {s : List α}, s.Nodup → List.Sublist [a, b] s → b ∈ s.take m →
      List.Sublist [a, b] (s.take m) := by
  intro m s
  induction s generalizing m with
  | nil => intro _ h _; simp at h
  | cons x s ih =>
    intro hnd hsub hb
    obtain ⟨hxs, hnds⟩ := List.nodup_cons.mp hnd
    cases m with
    | zero => simp at hb
    | succ k =>
      simp only [List.take_succ_cons] at hb ⊢
      cases hsub with
      | cons _ h' =>
        rcases List.mem_cons.mp hb with hbx | hbt
        · subst hbx
          exact absurd (h'.subset (by simp)) hxs
        · exact List.Sublist.cons x (ih hnds h' hbt)
      | cons₂ _ h' =>
        rcases List.mem_cons.mp hb with hbx | hbt
        · subst hbx
          exact absurd (List.singleton_sublist.mp h') hxs
        · exact List.Sublist.cons₂ a (List.singleton_sublist.mpr hbt)

/-- C4: `sort_alerts` orders the collection descending by (maximum
occurrence severity, word severity of the title), stably, and truncates to
the configured maximum, keeping exactly the top-N of the stable sort. -/
theorem sort_alerts_correct (maxAlerts : Nat) (l : AlertColl)
    (hnd : (l.map Prod.fst).Nodup) (_hocc : ∀ p ∈ l, p.2 ≠ []) :
    sortTruncSpec maxAlerts l := by
  have htr : ∀ (a b c : String × List Occurrence),
      sortDescLE a b → sortDescLE b c → sortDescLE a c :=
    fun _ _ _ h1 h2 => keyLexLE_trans h2 h1
  have htot : ∀ (a b : String × List Occurrence), sortDescLE a b || sortDescLE b a :=
    fun a b => keyLexLE_total _ _
  have hsorted := List.sorted_mergeSort htr htot l
  have hperm := List.mergeSort_perm l sortDescLE
  have hndl : (l.mergeSort sortDescLE).Nodup :=
    hperm.nodup_iff.mpr hnd.of_map
  refine ⟨?_, ?_, rfl, hperm, ?_, ?_⟩
  · exact hsorted.sublist (List.take_sublist _ _)
  · exact List.length_take_le _ _
  · intro a ha b hb
    have hp : ((l.mergeSort sortDescLE).take maxAlerts ++
        (l.mergeSort sortDescLE).drop maxAlerts).Pairwise
          (fun a b => sortDescLE a b = true) := by
      rw [List.take_append_drop]
      exact hsorted
    exact (List.pairwise_append.mp hp).2.2 a ha b hb
  · intro a b hkey hab hb
    have hle : sortDescLE a b = true := by
      simp [sortDescLE, keyLexLE, hkey]
    have hpair := List.pair_sublist_mergeSort htr htot hle hab
    exact pair_sublist_take hndl hpair hb

/-- C4 witness: the sorting postcondition instantiated at a concrete
two-alert collection with the default maximum of 99. -/
theorem sort_alerts_correct_witness :
    ((([("Tornado Watch", [occPlainA]), ("Flood Advisory", [occExpired])] : AlertColl).map
        Prod.fst).Nodup ∧
      ∀ p ∈ ([("Tornado Watch", [occPlainA]), ("Flood Advisory", [occExpired])] : AlertColl),
        p.2 ≠ []) ∧
    sortTruncSpec 99 [("Tornado Watch", [occPlainA]), ("Flood Advisory", [occExpired])] :=
  ⟨⟨by decide, by decide⟩, sort_alerts_correct 99 _ (by decide) (by decide)⟩

/-- C5: tone and identifier transitions are idempotent: transitioning to
the already-current value performs no copy and no save and returns
`False`; otherwise the assets are copied exactly once (two files for the
tone, one for the identifier) and the target is persisted; the immediate
repeat of the same transition is the no-op. -/
theorem transition_idempotent (cfg : CTConfig) (icfg : IDConfig) (s : EngineState)
    (X : String) (hX : X = "NORMAL" ∨ X = "WX") :
    transitionIdem cfg icfg s X := by
  have hne : ¬(X = "") := by rcases hX with h | h <;> subst h <;> decide
  refine ⟨?_, ?_, ?_, ?_, ?_, ?_⟩
  · intro h
    simp [change_ct, hne, h]
  · intro h
    by_cases hn : X = "NORMAL"
    · subst hn; simp [change_ct, hne, h]
    · simp [change_ct, hne, h, hn]
  · by_cases h : s.ct = some X
    · simp [change_ct, hne, h]
    · by_cases hn : X = "NORMAL"
      · subst hn; simp [change_ct, hne, h]
      · simp [change_ct, hne, h, hn]
  · intro h
    simp [change_id, hne, h]
  · intro h
    by_cases hn : X = "NORMAL"
    · subst hn; simp [change_id, hne, h]
    · simp [change_id, hne, h, hn]
  · by_cases h : s.id = some X
    · simp [change_id, hne, h]
    · by_cases hn : X = "NORMAL"
      · subst hn; simp [change_id, hne, h]
      · simp [change_id, hne, h, hn]

/-- C5 witness: the transition idempotence theorem at a concrete
configuration, the default (unset) state, and target `WX`. -/
theorem transition_idempotent_witness :
    (("WX" : String) = "NORMAL" ∨ ("WX" : String) = "WX") ∧
    transitionIdem ⟨"ct1.wav", "ct2.wav", "wx.wav", "rpt1.wav", "rpt2.wav"⟩
      ⟨"nid.wav", "wxid.wav", "rptid.wav"⟩ default_state "WX" :=
  ⟨Or.inr rfl,
   transition_idempotent _ _ default_state "WX" (Or.inr rfl)⟩

/-- Helper: counting in a constant-mapped list. -/
theorem count_map_const (a t : String) (l : List String) :
    (l.map (fun _ => a)).count t = if t = a then l.length else 0 := by
  by_cases h : t = a
  · subst h
    simp [List.map_const', List.count_replicate]
  · simp [List.map_const', List.count_replicate, h]
    intro ha
    exact absurd ha.symm h

/-- Helper: a title occurs in `matched_alerts` once per occurrence in the
new-alert list and per trigger pattern it matches. -/
theorem count_matched_alerts (new_alerts triggers : List String) (t : String) :
    (matched_alerts new_alerts triggers).count t =
      new_alerts.count t * (triggers.filter (fun g => fnmatch t g)).length := by
  induction new_alerts with
  | nil => simp [matched_alerts]
  | cons a rest ih =>
    have hstep : matched_alerts (a :: rest) triggers =
        ((triggers.filter (fun g => fnmatch a g)).map (fun _ => a)) ++
          matched_alerts rest triggers := by
      simp [matched_alerts]
    rw [hstep, List.count_append, ih, count_map_const]
    by_cases h : t = a
    · subst h
      rw [if_pos rfl, List.count_cons_self]
      ring
    · simp [List.count_cons_of_ne h, h]

/-- C6 counterexample: one new title matching both patterns of a single
ANY mapping makes the mapping run its command twice for that title within
one cycle. -/
theorem alert_script_double_fire :
    (alert_script [mapC6] default_state ["Tornado Warning"]).executions =
      [("say \x7balert_title\x7d", "Tornado Warning"),
       ("say \x7balert_title\x7d", "Tornado Warning")] := by decide

/-- C6 (amended): only newly-appeared titles are evaluated (so a
continuously active title cannot re-fire), a title fires a mapping once
per pattern it matches within the cycle, a cleared title is removed from
the processed set, and the active set becomes the current titles. -/
theorem alert_script_single_fire (mappings : List Mapping) (s : EngineState)
    (alertNames : List String) (hnd : alertNames.Nodup) :
    triggerSingleFire mappings s alertNames := by
  refine ⟨?_, ?_, ?_, ?_, by simp [alert_script]⟩
  · intro m hm t ht
    obtain ⟨a, ha, hta⟩ := List.mem_flatMap.mp ht
    obtain ⟨g, hg, hfa⟩ := List.mem_map.mp hta
    cases hfa
    have hfil := List.mem_filter.mp ha
    refine ⟨hfil.1, ?_⟩
    have hc := hfil.2
    simp only [List.contains, Bool.not_eq_true', List.elem_eq_mem,
      decide_eq_false_iff_not] at hc
    exact hc
  · intro m hm t
    exact count_matched_alerts _ _ t
  · intro t
    exact le_trans (List.Sublist.count_le (List.filter_sublist _) t)
      (List.nodup_iff_count_le_one.mp hnd t)
  · intro t ht hnot hmem
    simp only [alert_script] at hmem
    have h2 := (List.mem_filter.mp hmem).2
    simp only [List.contains, Bool.not_eq_true', List.elem_eq_mem,
      decide_eq_false_iff_not] at h2
    refine h2 (List.mem_filter.mpr ⟨ht, ?_⟩)
    simp [List.contains, hnot]

/-- C6 witness: the amended trigger property at the concrete double-match
mapping, the default state, and one new title. -/
theorem alert_script_single_fire_witness :
    (["Tornado Warning"] : List String).Nodup ∧
    triggerSingleFire [mapC6] default_state ["Tornado Warning"] :=
  ⟨by decide, alert_script_single_fire [mapC6] default_state _ (by decide)⟩

/-- C7 counterexample: under the ALL policy with two overlapping patterns
and a single new title, only one title matches (so the claim says the
mapping must not fire, since 1 ≠ 2), yet the code fires and runs the
command — `len(matched_alerts)` counts (title, pattern) pairs. -/
theorem all_match_counterexample :
    (alert_script [mapC7] default_state ["Tornado Warning"]).executions =
      [("beep", "Tornado Warning"), ("beep", "Tornado Warning")] ∧
    (specMatchingTitles ["Tornado Warning"] mapC7.triggers).length = 1 ∧
    mapC7.triggers.length = 2 := by decide

/-- C7 (amended): an ALL mapping fires exactly when the length of
`matched_alerts` equals the pattern count, and that length is the total
number of (new title, matching pattern) pairs, not the number of matching
titles. -/
theorem all_match_mode_correct (m : Mapping) (hall : m.matchT = "ALL")
    (new_alerts : List String) :
    (mappingFires m (matched_alerts new_alerts m.triggers) = true ↔
      (matched_alerts new_alerts m.triggers).length = m.triggers.length) ∧
    (matched_alerts new_alerts m.triggers).length =
      (new_alerts.map (fun a => (m.triggers.filter (fun g => fnmatch a g)).length)).sum := by
  constructor
  · simp [mappingFires, hall]
  · induction new_alerts with
    | nil => simp [matched_alerts]
    | cons a rest ih =>
      have hstep : matched_alerts (a :: rest) m.triggers =
          ((m.triggers.filter (fun g => fnmatch a g)).map (fun _ => a)) ++
            matched_alerts rest m.triggers := by
        simp [matched_alerts]
      simp [hstep, ih]

/-- C7 witness: the amended ALL-policy characterization at the concrete
mapping and a single new title matching one pattern. -/
theorem all_match_mode_correct_witness :
    mapC7.matchT = "ALL" ∧
    ((mappingFires mapC7 (matched_alerts ["Flood Watch"] mapC7.triggers) = true ↔
      (matched_alerts ["Flood Watch"] mapC7.triggers).length = mapC7.triggers.length) ∧
     (matched_alerts ["Flood Watch"] mapC7.triggers).length =
      ((["Flood Watch"] : List String).map
        (fun a => (mapC7.triggers.filter (fun g => fnmatch a g)).length)).sum) :=
  ⟨rfl, all_match_mode_correct mapC7 rfl ["Flood Watch"]⟩

/-- C8: with a nonempty collection whose only alert is tailmessage-blocked,
the exported tailmessage is the zero-length empty composition, not the
100 ms silence the empty-collection path writes — `combined_sound.empty()`
is a falsy classmethod result, so the all-blocked branch never runs. -/
theorem tailmessage_all_blocked_zero_length :
    (build_tailmessage tailCfgBlockAll []).tailfile = [Seg.silence 100] ∧
    (build_tailmessage tailCfgBlockAll [("Tornado Warning", [occPlainA])]).tailfile = [] ∧
    (build_tailmessage tailCfgBlockAll [("Tornado Warning", [occPlainA])]).tailfile ≠
      [Seg.silence 100] := by decide

/-- Helper: completeness of the county loop — an eligible county of the
remaining occurrences that is not yet announced gets its (title, county)
event. -/
theorem countyLoop_mem (codes wavs : List String) (t : String) (occs : List Occurrence) :
    ∀ (rest : List Occurrence) (added : List String) (c : String),
      c ∈ rest.map (fun o => o.county_code) →
      wavs.isEmpty = false → codes.contains c = true → added.contains c = false →
      (t, c) ∈ (countyLoop codes wavs t occs rest added).2.1 := by
  intro rest
  induction rest with
  | nil =>
    intro added c hc _ _ _
    simp at hc
  | cons occ rest2 ih =>
    intro added c hc hw hcode hna
    have hcodeP : c ∈ codes := by simpa using hcode
    have hnaP : c ∉ added := by simpa using hna
    simp only [List.map_cons, List.mem_cons] at hc
    by_cases hceq : c = occ.county_code
    · have hcond : (!wavs.isEmpty && codes.contains occ.county_code &&
          !added.contains occ.county_code) = true := by
        rw [← hceq]
        simp [hw, hcodeP, hnaP]
      simp only [countyLoop]
      rw [if_pos hcond]
      exact List.mem_cons.mpr (Or.inl (by rw [hceq]))
    · have hc2 : c ∈ rest2.map (fun o => o.county_code) := by
        rcases hc with h1 | h2
        · exact absurd h1 hceq
        · exact h2
      by_cases hcond : (!wavs.isEmpty && codes.contains occ.county_code &&
          !added.contains occ.county_code) = true
      · simp only [countyLoop]
        rw [if_pos hcond]
        refine List.mem_cons.mpr (Or.inr ?_)
        refine ih (occ.county_code :: added) c hc2 hw hcode ?_
        simp [hceq, hnaP]
      · simp only [countyLoop]
        rw [if_neg hcond]
        exact ih added c hc2 hw hcode hna

/-- Helper: the county loop announces each county at most once relative to
the announced set it was given — its event counties are duplicate-free,
disjoint from the given set, and the returned set is the union of both. -/
theorem countyLoop_inv (codes wavs : List String) (t : String) (occs : List Occurrence) :
    ∀ (rest : List Occurrence) (added : List String),
      (((countyLoop codes wavs t occs rest added).2.1.map Prod.snd).Nodup ∧
       (∀ c ∈ (countyLoop codes wavs t occs rest added).2.1.map Prod.snd, c ∉ added) ∧
       (∀ c, c ∈ (countyLoop codes wavs t occs rest added).2.2 ↔
         c ∈ (countyLoop codes wavs t occs rest added).2.1.map Prod.snd ∨ c ∈ added)) := by
  intro rest
  induction rest with
  | nil =>
    intro added
    simp [countyLoop]
  | cons occ rest2 ih =>
    intro added
    by_cases hcond : (!wavs.isEmpty && codes.contains occ.county_code &&
        !added.contains occ.county_code) = true
    · obtain ⟨ihn, ihna, ihacc⟩ := ih (occ.county_code :: added)
      have hocc_na : occ.county_code ∉ added := by
        have h3 := hcond
        simp only [Bool.and_eq_true, Bool.not_eq_true'] at h3
        simpa using h3.2
      simp only [countyLoop]
      rw [if_pos hcond]
      simp only [List.map_cons]
      refine ⟨?_, ?_, ?_⟩
      · refine List.nodup_cons.mpr ⟨?_, ihn⟩
        intro hmem
        exact (ihna _ hmem) (List.mem_cons_self _ _)
      · intro c hcmem
        rcases List.mem_cons.mp hcmem with hc1 | hc2
        · rw [hc1]; exact hocc_na
        · intro hmem
          exact (ihna c hc2) (List.mem_cons_of_mem _ hmem)
      · intro c
        rw [ihacc c]
        simp only [List.mem_cons]
        tauto
    · obtain ⟨ihn, ihna, ihacc⟩ := ih added
      simp only [countyLoop]
      rw [if_neg hcond]
      exact ⟨ihn, ihna, ihacc⟩

/-- Helper: one tailmessage alert step preserves the build invariant that
the county events so far are duplicate-free and all recorded in the shared
announced set. -/
theorem tailAlertStep_inv (cfg : TailConfig)
    (acc : List Seg × List (String × String) × List String)
    (p : String × List Occurrence)
    (h1 : (acc.2.1.map Prod.snd).Nodup)
    (h2 : ∀ c ∈ acc.2.1.map Prod.snd, c ∈ acc.2.2) :
    (((tailAlertStep cfg acc p).2.1.map Prod.snd).Nodup ∧
     ∀ c ∈ (tailAlertStep cfg acc p).2.1.map Prod.snd, c ∈ (tailAlertStep cfg acc p).2.2) := by
  unfold tailAlertStep
  by_cases hb : cfg.blocked.any (fun g => fnmatch p.1 g) = true
  · rw [if_pos hb]
    exact ⟨h1, h2⟩
  · rw [if_neg hb]
    rcases hidx : alertIndex p.1 with _ | i
    · exact ⟨h1, h2⟩
    · dsimp only
      by_cases hce : cfg.countyEnabled = true
      · rw [if_pos hce]
        obtain ⟨cn, cna, cacc⟩ := countyLoop_inv cfg.countyCodes cfg.countyWavs p.1 p.2 p.2 acc.2.2
        simp only [List.map_append]
        refine ⟨?_, ?_⟩
        · refine List.Nodup.append h1 cn ?_
          intro c hc1 hc2
          exact (cna c hc2) (h2 c hc1)
        · intro c hcmem
          rcases List.mem_append.mp hcmem with hcA | hcR
          · exact (cacc c).mpr (Or.inr (h2 c hcA))
          · exact (cacc c).mpr (Or.inl hcR)
      · rw [if_neg hce]
        exact ⟨h1, h2⟩

/-- Helper: the tailmessage build invariant holds after folding over any
alert collection. -/
theorem tail_fold_inv (cfg : TailConfig) :
    ∀ (alerts : AlertColl) (acc : List Seg × List (String × String) × List String),
      (acc.2.1.map Prod.snd).Nodup →
      (∀ c ∈ acc.2.1.map Prod.snd, c ∈ acc.2.2) →
      ((((alerts.foldl (tailAlertStep cfg) acc).2.1.map Prod.snd).Nodup) ∧
       (∀ c ∈ (alerts.foldl (tailAlertStep cfg) acc).2.1.map Prod.snd,
         c ∈ (alerts.foldl (tailAlertStep cfg) acc).2.2)) := by
  intro alerts
  induction alerts with
  | nil => intro acc hh1 hh2; exact ⟨hh1, hh2⟩
  | cons p rest ih =>
    intro acc hh1 hh2
    rw [List.foldl_cons]
    obtain ⟨s1, s2⟩ := tailAlertStep_inv cfg acc p hh1 hh2
    exact ih (tailAlertStep cfg acc p) s1 s2

/-- Helper: one say-alert step appends exactly this alert's own events
(computed from a fresh announced set) to the accumulator. -/
theorem sayAlertStep_events (cfg : SayConfig)
    (acc : List Seg × List (String × String) × Nat) (p : String × List Occurrence) :
    (sayAlertStep cfg acc p).2.1 = acc.2.1 ++ sayAlertEvents cfg p := by
  unfold sayAlertStep sayAlertEvents
  by_cases hb : cfg.blocked.any (fun g => fnmatch p.1 g) = true
  · rw [if_pos hb, if_pos hb]
    simp
  · rw [if_neg hb, if_neg hb]
    rcases hidx : alertIndex p.1 with _ | i
    · simp
    · simp

/-- Helper: the say-alert events of a whole build are the concatenation of
the per-alert events, each computed from its own fresh announced set. -/
theorem sayEvents_fold (cfg : SayConfig) :
    ∀ (alerts : AlertColl) (acc : List Seg × List (String × String) × Nat),
      (alerts.foldl (sayAlertStep cfg) acc).2.1 =
        acc.2.1 ++ alerts.flatMap (sayAlertEvents cfg) := by
  intro alerts
  induction alerts with
  | nil => intro acc; simp
  | cons p rest ih =>
    intro acc
    rw [List.foldl_cons, ih, List.flatMap_cons, sayAlertStep_events]
    simp

/-- C9 counterexample: with one county shared by two alerts, the
tailmessage build announces the county only under the first title — the
announced set is not reset between alerts — whereas the announcement build
announces it once under each title. -/
theorem tailmessage_shares_county_set :
    (build_tailmessage tailCfgC9
        [("Flood Warning", [occPlainA]), ("Flood Watch", [occA2])]).events =
      [("Flood Warning", "A")] ∧
    ("Flood Watch", "A") ∉ (build_tailmessage tailCfgC9
        [("Flood Warning", [occPlainA]), ("Flood Watch", [occA2])]).events ∧
    (say_alerts_build sayCfgC9
        [("Flood Warning", [occPlainA]), ("Flood Watch", [occA2])]).map Prod.snd =
      some [("Flood Warning", "A"), ("Flood Watch", "A")] := by decide

/-- C9 (amended): the announcement build resets the announced-county set
between alerts, so every eligible alert announces every eligible county of
its occurrences; the tailmessage build threads one announced set through
the whole message, so each county identifier is appended at most once in
the entire build. -/
theorem county_dedup_correct (scfg : SayConfig) (tcfg : TailConfig) (alerts : AlertColl) :
    countyDedupAmended scfg tcfg alerts := by
  constructor
  · intro p hp c hb hidx hw hcode hcmem
    have hflat : sayEvents scfg alerts = alerts.flatMap (sayAlertEvents scfg) := by
      unfold sayEvents
      rw [sayEvents_fold]
      simp
    rw [hflat]
    refine List.mem_flatMap.mpr ⟨p, hp, ?_⟩
    unfold sayAlertEvents
    rw [if_neg (by simp [hb])]
    obtain ⟨i, hi⟩ := Option.isSome_iff_exists.mp hidx
    rw [hi]
    exact countyLoop_mem scfg.countyCodes scfg.countyWavs p.1 p.2 p.2 [] c hcmem hw hcode rfl
  · exact (tail_fold_inv tcfg alerts ([], [], []) (by simp) (by simp)).1

/-- C9 witness: the amended deduplication property at the concrete
configurations and the shared-county collection. -/
theorem county_dedup_correct_witness :
    countyDedupAmended sayCfgC9 tailCfgC9
      [("Flood Warning", [occPlainA]), ("Flood Watch", [occA2])] :=
  county_dedup_correct sayCfgC9 tailCfgC9 _

/-- C10: the orchestrator's `pushover_message` is unchanged by the two
`change_ct_id_helper` calls — the helper appends only to its local copy
(shown by the concrete second conjunct, where the local copy does gain a
notice) and returns nothing, so tone/identifier change notices are never
added to the outgoing notification text. -/
theorem helper_preserves_pushover_message (cfg : CTConfig) (icfg : IDConfig)
    (s : EngineState) (alerts : AlertColl) (ct_alerts id_alerts : List String)
    (enable_ct enable_id : Bool) (pushover_debug : Bool) (msg : String) :
    mainPushoverAfterCtId cfg icfg s alerts ct_alerts id_alerts enable_ct enable_id
      pushover_debug msg = msg ∧
    (change_ct_id_helper cfg icfg default_state [("Tornado Warning", [occPlainA])]
        ["Tornado Warning"] true "CT" true msg).localMessage =
      msg ++ "Changed CT to WX\n" := by
  constructor
  · rfl
  · rfl
